import Mathlib

/-!
Shallow embedding of the analytics backend core (app/services.py, app/schemas.py,
app/main.py) and proofs of the specified properties of its aggregation engine.

Records are modelled as attribute lists (the generic engine accesses record
attributes dynamically by name), numeric column values as rationals, datetime
values as integers.  Relational-store aggregation follows SQL semantics: SUM,
AVG, MIN, MAX ignore NULL values and are NULL over an empty set; COUNT counts
rows; GROUP BY partitions rows by attribute value.  Python truthiness of
optional strings (None and the empty string are falsy) is modelled explicitly.
-/

namespace AnalyticsBackend

/-- Enum of supported analytics domains, from app/schemas.py (AnalyticsType). -/
inductive AnalyticsType
  | sales
  | food_delivery
  | saas
deriving DecidableEq, Repr

/-- String value of a domain tag, as in the Python enum. -/
def AnalyticsType.value : AnalyticsType → String
  | .sales => "sales"
  | .food_delivery => "food_delivery"
  | .saas => "saas"

/-- Enum of supported aggregation kinds, from app/schemas.py (AggregationType). -/
inductive AggregationType
  | sum
  | avg
  | count
  | min
  | max
deriving DecidableEq, Repr

/-- String value of an aggregation kind, as in the Python enum. -/
def AggregationType.value : AggregationType → String
  | .sum => "sum"
  | .avg => "avg"
  | .count => "count"
  | .min => "min"
  | .max => "max"

/-- A scalar column value: string, numeric, or datetime. -/
inductive Value
  | str (s : String)
  | num (q : ℚ)
  | date (d : ℤ)
deriving DecidableEq, Repr

/-- A stored record: a list of named attribute values (one row of a model table). -/
abbrev Rec := List (String × Value)

/-- Dynamic attribute access on a record, mirroring getattr on a model row.
A missing attribute is NULL (none). -/
def getAttr (r : Rec) (name : String) : Option Value :=
  (r.find? (fun p => p.1 == name)).map (fun p => p.2)

/-- The filter parameter bag shared by all domains, from app/schemas.py
(FilterParams).  Field order matches the pydantic declaration order. -/
structure FilterParams where
  category : Option String := none
  region : Option String := none
  product_name : Option String := none
  payment_method : Option String := none
  restaurant_name : Option String := none
  cuisine_type : Option String := none
  city : Option String := none
  delivery_status : Option String := none
  plan_name : Option String := none
  plan_type : Option String := none
  status : Option String := none
  currency : Option String := none
  customer_id : Option String := none
  start_date : Option ℤ := none
  end_date : Option ℤ := none
deriving DecidableEq, Repr

/-- getattr(filters, name, None) for the string-valued filter parameters. -/
def FilterParams.getParam (f : FilterParams) (name : String) : Option String :=
  if name == "category" then f.category
  else if name == "region" then f.region
  else if name == "product_name" then f.product_name
  else if name == "payment_method" then f.payment_method
  else if name == "restaurant_name" then f.restaurant_name
  else if name == "cuisine_type" then f.cuisine_type
  else if name == "city" then f.city
  else if name == "delivery_status" then f.delivery_status
  else if name == "plan_name" then f.plan_name
  else if name == "plan_type" then f.plan_type
  else if name == "status" then f.status
  else if name == "currency" then f.currency
  else if name == "customer_id" then f.customer_id
  else none

/-- Python truthiness of an optional string: None and the empty string are falsy. -/
def truthy : Option String → Bool
  | some s => s != ""
  | none => false

/-- Schema metadata of one domain (one entry of AnalyticsService.ANALYTICS_CONFIG). -/
structure DomainConfig where
  date_field : String
  aggregatable_fields : List String
  groupable_fields : List String
  filter_fields : List (String × String)
deriving DecidableEq, Repr

/-- Registry entry for the sales domain, from AnalyticsService.ANALYTICS_CONFIG. -/
def SALES_CONFIG : DomainConfig :=
  { date_field := "sale_date"
    aggregatable_fields := ["amount", "quantity"]
    groupable_fields := ["category", "region", "product_name", "payment_method"]
    filter_fields :=
      [("category", "category"), ("region", "region"),
       ("product_name", "product_name"), ("payment_method", "payment_method"),
       ("customer_id", "customer_id")] }

/-- Registry entry for the food-delivery domain. -/
def FOOD_DELIVERY_CONFIG : DomainConfig :=
  { date_field := "order_date"
    aggregatable_fields :=
      ["order_amount", "delivery_fee", "tip_amount", "total_amount",
       "delivery_time_minutes"]
    groupable_fields := ["restaurant_name", "cuisine_type", "city", "delivery_status"]
    filter_fields :=
      [("restaurant_name", "restaurant_name"), ("cuisine_type", "cuisine_type"),
       ("city", "city"), ("delivery_status", "delivery_status"),
       ("customer_id", "customer_id")] }

/-- Registry entry for the SaaS domain. -/
def SAAS_CONFIG : DomainConfig :=
  { date_field := "billing_cycle_start"
    aggregatable_fields := ["amount", "mrr"]
    groupable_fields := ["plan_name", "plan_type", "status", "currency"]
    filter_fields :=
      [("plan_name", "plan_name"), ("plan_type", "plan_type"),
       ("status", "status"), ("currency", "currency"),
       ("customer_id", "customer_id")] }

/-- The registry mapping, AnalyticsService.ANALYTICS_CONFIG. -/
def ANALYTICS_CONFIG : List (AnalyticsType × DomainConfig) :=
  [(.sales, SALES_CONFIG), (.food_delivery, FOOD_DELIVERY_CONFIG), (.saas, SAAS_CONFIG)]

/-- AnalyticsService.get_config: dictionary lookup, raising ValueError on a miss. -/
def get_config (t : AnalyticsType) : Except String DomainConfig :=
  match ANALYTICS_CONFIG.find? (fun p => p.1 == t) with
  | some p => .ok p.2
  | none => .error ("Unsupported analytics type: " ++ t.value)

/-- Column names of the SQLAlchemy model class of each domain
(app/models/sales.py, food_delivery.py, saas.py). -/
def modelFields : AnalyticsType → List String
  | .sales =>
      ["id", "product_name", "category", "amount", "quantity", "region",
       "customer_id", "payment_method", "sale_date", "created_at"]
  | .food_delivery =>
      ["id", "order_id", "restaurant_name", "cuisine_type", "order_amount",
       "delivery_fee", "tip_amount", "total_amount", "customer_id", "city",
       "delivery_status", "order_date", "delivery_time_minutes", "created_at"]
  | .saas =>
      ["id", "subscription_id", "customer_id", "plan_name", "plan_type", "amount",
       "status", "currency", "billing_cycle_start", "billing_cycle_end",
       "created_at", "cancelled_at", "mrr"]

/-- One iteration of the filter loop of AnalyticsService.apply_filters: for a
binding (param, model_field), if the parameter has a truthy value and the model
has the bound column, require equality of the record attribute with the value. -/
def paramPred (mfields : List String) (f : FilterParams) (r : Rec)
    (pb : String × String) : Bool :=
  match f.getParam pb.1 with
  | some v =>
      if v != "" then
        (if pb.2 ∈ mfields then getAttr r pb.2 == some (Value.str v) else true)
      else true
  | none => true

/-- The start-date range predicate of apply_filters (date_attr >= start_date). -/
def datePredGE (mfields : List String) (dfield : String) (sd : ℤ) (r : Rec) : Bool :=
  if dfield ∈ mfields then
    match getAttr r dfield with
    | some (Value.date d) => decide (sd ≤ d)
    | _ => false
  else true

/-- The end-date range predicate of apply_filters (date_attr <= end_date). -/
def datePredLE (mfields : List String) (dfield : String) (ed : ℤ) (r : Rec) : Bool :=
  if dfield ∈ mfields then
    match getAttr r dfield with
    | some (Value.date d) => decide (d ≤ ed)
    | _ => false
  else true

/-- The conjunction of all predicates emitted by AnalyticsService.apply_filters
for one record: domain-bound equality filters, then the date range filters. -/
def filterPred (mfields : List String) (cfg : DomainConfig) (f : FilterParams)
    (r : Rec) : Bool :=
  cfg.filter_fields.all (paramPred mfields f r)
    && (match f.start_date with
        | some sd => datePredGE mfields cfg.date_field sd r
        | none => true)
    && (match f.end_date with
        | some ed => datePredLE mfields cfg.date_field ed r
        | none => true)

/-- AnalyticsService.apply_filters: narrow a record set by the ANDed predicates. -/
def apply_filters (mfields : List String) (cfg : DomainConfig) (f : FilterParams)
    (db : List Rec) : List Rec :=
  db.filter (filterPred mfields cfg f)

/-- The narrowed record set of a request: filters applied when present,
the whole table otherwise (the query variable of AnalyticsService.aggregate). -/
def narrowed (db : List Rec) (t : AnalyticsType) (cfg : DomainConfig)
    (filters : Option FilterParams) : List Rec :=
  match filters with
  | some f => apply_filters (modelFields t) cfg f db
  | none => db

/-- The numeric content of a column value; non-numeric and NULL give none. -/
def asNum : Option Value → Option ℚ
  | some (Value.num q) => some q
  | _ => none

/-- The non-NULL numeric values of a field across a record set (SQL aggregate
functions skip NULLs). -/
def fieldVals (field : String) (rs : List Rec) : List ℚ :=
  rs.filterMap (fun r => asNum (getAttr r field))

/-- SQL SUM: NULL over the empty set, otherwise the sum. -/
def sqlSum (vs : List ℚ) : Option ℚ :=
  match vs with
  | [] => none
  | _ => some vs.sum

/-- SQL AVG: NULL over the empty set, otherwise the mean. -/
def sqlAvg (vs : List ℚ) : Option ℚ :=
  match vs with
  | [] => none
  | _ => some (vs.sum / (vs.length : ℚ))

/-- SQL MIN: NULL over the empty set, otherwise the minimum. -/
def sqlMin (vs : List ℚ) : Option ℚ :=
  vs.foldl (fun acc v =>
    match acc with
    | none => some v
    | some m => some (min m v)) none

/-- SQL MAX: NULL over the empty set, otherwise the maximum. -/
def sqlMax (vs : List ℚ) : Option ℚ :=
  vs.foldl (fun acc v =>
    match acc with
    | none => some v
    | some m => some (max m v)) none

/-- The Python coercion float(result) if result else 0.0 applied to a scalar
aggregate: NULL and zero both map to 0.0. -/
def pyNumOrZero : Option ℚ → ℚ
  | some q => if q = 0 then 0 else q
  | none => 0

/-- str(x) applied to a group key coming back from the store (str of None for
NULL group values). -/
def pyStr : Option Value → String
  | some (Value.str s) => s
  | some (Value.num q) => toString q
  | some (Value.date d) => toString d
  | none => "None"

/-- The distinct group-key values of a GROUP BY over the narrowed record set,
in deterministic (implementation-defined) order. -/
def groupKeys (g : String) (rs : List Rec) : List (Option Value) :=
  (rs.map (fun r => getAttr r g)).dedup

/-- The partition of the narrowed record set holding one group-key value. -/
def partitionOf (g : String) (k : Option Value) (rs : List Rec) : List Rec :=
  rs.filter (fun r => getAttr r g == k)

/-- One (group, value) row of a grouped aggregation result. -/
structure GroupEntry where
  group : String
  value : ℚ
deriving DecidableEq, Repr

/-- The grouped result rows: one entry per observed group key, with the
per-partition aggregate value. -/
def groupAgg (g : String) (query : List Rec) (pv : List Rec → ℚ) : List GroupEntry :=
  (groupKeys g query).map (fun k => { group := pyStr k, value := pv (partitionOf g k query) })

/-- Scalar sum value of a record set, with the Python NULL-to-zero coercion. -/
def sumVal (field : String) (rs : List Rec) : ℚ :=
  pyNumOrZero (sqlSum (fieldVals field rs))

/-- Scalar average value of a record set, with the Python NULL-to-zero coercion. -/
def avgVal (field : String) (rs : List Rec) : ℚ :=
  pyNumOrZero (sqlAvg (fieldVals field rs))

/-- Scalar minimum value of a record set, with the Python NULL-to-zero coercion. -/
def minVal (field : String) (rs : List Rec) : ℚ :=
  pyNumOrZero (sqlMin (fieldVals field rs))

/-- Scalar maximum value of a record set, with the Python NULL-to-zero coercion. -/
def maxVal (field : String) (rs : List Rec) : ℚ :=
  pyNumOrZero (sqlMax (fieldVals field rs))

/-- Row count of a record set (query.count() and func.count() read no field). -/
def countVal (rs : List Rec) : ℚ :=
  (rs.length : ℚ)

/-- The aggregation response dictionary of AnalyticsService.aggregate
(AggregationResponse shape: optional scalar value or optional grouped rows). -/
structure AggregationResult where
  analytics_type : String
  aggregation_type : String
  field : String
  value : Option ℚ := none
  group_by : Option String := none
  groups : Option (List GroupEntry) := none
  filters_applied : List (String × Value) := []
deriving DecidableEq, Repr

/-- An ungrouped response dictionary. -/
def mkScalar (t : AnalyticsType) (k : AggregationType) (field : String)
    (fa : List (String × Value)) (v : ℚ) : AggregationResult :=
  { analytics_type := t.value, aggregation_type := k.value, field := field,
    value := some v, filters_applied := fa }

/-- A grouped response dictionary. -/
def mkGrouped (t : AnalyticsType) (k : AggregationType) (field : String)
    (g : String) (fa : List (String × Value)) (gs : List GroupEntry) :
    AggregationResult :=
  { analytics_type := t.value, aggregation_type := k.value, field := field,
    group_by := some g, groups := some gs, filters_applied := fa }

/-- One entry of model_dump(exclude_none=True) for a string parameter. -/
def dumpEntryS (name : String) (v : Option String) : List (String × Value) :=
  match v with
  | some s => [(name, Value.str s)]
  | none => []

/-- One entry of model_dump(exclude_none=True) for a datetime parameter. -/
def dumpEntryD (name : String) (v : Option ℤ) : List (String × Value) :=
  match v with
  | some d => [(name, Value.date d)]
  | none => []

/-- filters.model_dump(exclude_none=True): every non-None parameter, in pydantic
field declaration order.  Empty strings are not None, so they are included. -/
def FilterParams.dumpExcludeNone (f : FilterParams) : List (String × Value) :=
  dumpEntryS "category" f.category ++ dumpEntryS "region" f.region
    ++ dumpEntryS "product_name" f.product_name
    ++ dumpEntryS "payment_method" f.payment_method
    ++ dumpEntryS "restaurant_name" f.restaurant_name
    ++ dumpEntryS "cuisine_type" f.cuisine_type
    ++ dumpEntryS "city" f.city ++ dumpEntryS "delivery_status" f.delivery_status
    ++ dumpEntryS "plan_name" f.plan_name ++ dumpEntryS "plan_type" f.plan_type
    ++ dumpEntryS "status" f.status ++ dumpEntryS "currency" f.currency
    ++ dumpEntryS "customer_id" f.customer_id
    ++ dumpEntryD "start_date" f.start_date ++ dumpEntryD "end_date" f.end_date

/-- The filters_applied echo of a response: the dump of the filters when
present, the empty mapping otherwise. -/
def filtersApplied (filters : Option FilterParams) : List (String × Value) :=
  match filters with
  | some f => f.dumpExcludeNone
  | none => []

/-- ValueError message for an invalid aggregation field, naming the valid set. -/
def invalidFieldMsg (t : AnalyticsType) (cfg : DomainConfig) : String :=
  "Invalid field for " ++ t.value ++ ". Must be one of: "
    ++ toString cfg.aggregatable_fields

/-- ValueError message for an invalid group_by field, naming the valid set. -/
def invalidGroupMsg (t : AnalyticsType) (cfg : DomainConfig) : String :=
  "Invalid group_by field for " ++ t.value ++ ". Must be one of: "
    ++ toString cfg.groupable_fields

/-- The body of AnalyticsService.aggregate after the registry lookup: field
validation, group_by validation (only when group_by is truthy), then the
per-kind aggregation over the already-narrowed query. -/
def aggregateCore (cfg : DomainConfig) (t : AnalyticsType) (k : AggregationType)
    (field : String) (group_by : Option String) (fa : List (String × Value))
    (query : List Rec) : Except String AggregationResult :=
  if field ∉ cfg.aggregatable_fields then
    .error (invalidFieldMsg t cfg)
  else if truthy group_by = true ∧ group_by.getD "" ∉ cfg.groupable_fields then
    .error (invalidGroupMsg t cfg)
  else
    match k with
    | .sum =>
        if truthy group_by = true then
          .ok (mkGrouped t k field (group_by.getD "") fa
            (groupAgg (group_by.getD "") query (sumVal field)))
        else
          .ok (mkScalar t k field fa (sumVal field query))
    | .avg =>
        if truthy group_by = true then
          .ok (mkGrouped t k field (group_by.getD "") fa
            (groupAgg (group_by.getD "") query (avgVal field)))
        else
          .ok (mkScalar t k field fa (avgVal field query))
    | .count =>
        if truthy group_by = true then
          .ok (mkGrouped t k field (group_by.getD "") fa
            (groupAgg (group_by.getD "") query countVal))
        else
          .ok (mkScalar t k field fa (countVal query))
    | .min =>
        .ok (mkScalar t k field fa (minVal field query))
    | .max =>
        .ok (mkScalar t k field fa (maxVal field query))

/-- AnalyticsService.aggregate: resolve the domain, narrow the record set by the
filters, validate, aggregate. -/
def aggregate (db : List Rec) (t : AnalyticsType) (k : AggregationType)
    (field : String) (filters : Option FilterParams) (group_by : Option String) :
    Except String AggregationResult :=
  match get_config t with
  | .error e => .error e
  | .ok cfg =>
      aggregateCore cfg t k field group_by (filtersApplied filters)
        (narrowed db t cfg filters)

/-- One label/value/metadata point of a chart response. -/
structure ChartDataPoint where
  label : String
  value : ℚ
  metadata : List (String × Value) := []
deriving DecidableEq, Repr

/-- The chart response dictionary of AnalyticsService.get_chart_data, with its
metadata dictionary flattened into named fields. -/
structure ChartResult where
  analytics_type : String
  chart_type : String
  data : List ChartDataPoint
  meta_field : String
  meta_group_by : String
  meta_filters_applied : List (String × Value)
  meta_total_points : ℕ
deriving DecidableEq, Repr

/-- The data_points list comprehension of get_chart_data: one label/value point
per row of the grouped-sum query, with the NULL-to-zero value coercion. -/
def chartPoints (field group_by : String) (query : List Rec) : List ChartDataPoint :=
  (groupKeys group_by query).map (fun kk =>
    { label := pyStr kk,
      value := sumVal field (partitionOf group_by kk query),
      metadata := [] })

/-- AnalyticsService.get_chart_data: the grouped-sum query of the aggregation
engine reshaped into label/value points; chart_type is only echoed. -/
def get_chart_data (db : List Rec) (t : AnalyticsType) (chart_type : String)
    (field : String) (group_by : String) (filters : Option FilterParams) :
    Except String ChartResult :=
  match get_config t with
  | .error e => .error e
  | .ok cfg =>
      let query := narrowed db t cfg filters
      if field ∉ cfg.aggregatable_fields then
        .error (invalidFieldMsg t cfg)
      else if group_by ∉ cfg.groupable_fields then
        .error (invalidGroupMsg t cfg)
      else
        let data := chartPoints field group_by query
        .ok { analytics_type := t.value, chart_type := chart_type, data := data,
              meta_field := field, meta_group_by := group_by,
              meta_filters_applied := filtersApplied filters,
              meta_total_points := data.length }

/-- The has-any-filters truthiness test of the /api/v1/aggregate route
(any over the supplied parameters; empty strings are falsy). -/
def has_filters (p : FilterParams) : Bool :=
  truthy p.category || truthy p.region || truthy p.product_name
    || truthy p.payment_method || truthy p.restaurant_name || truthy p.cuisine_type
    || truthy p.city || truthy p.delivery_status || truthy p.plan_name
    || truthy p.plan_type || truthy p.status || truthy p.currency
    || truthy p.customer_id || p.start_date.isSome || p.end_date.isSome

/-- The route passes the filter bag through only when some parameter is truthy. -/
def routeFilters (p : FilterParams) : Option FilterParams :=
  if has_filters p then some p else none

/-- The get_aggregation route handler of app/main.py: build the filter bag from
the query parameters and call the service. -/
def get_aggregation (db : List Rec) (t : AnalyticsType) (k : AggregationType)
    (field : String) (group_by : Option String) (p : FilterParams) :
    Except String AggregationResult :=
  aggregate db t k field (routeFilters p) group_by

/-- Case-defined view of the registry, used to discharge registry hypotheses. -/
def configOf : AnalyticsType → DomainConfig
  | .sales => SALES_CONFIG
  | .food_delivery => FOOD_DELIVERY_CONFIG
  | .saas => SAAS_CONFIG

/-- Sum of the per-group values of a grouped aggregation response; none when the
request failed or returned no grouped rows. -/
def groupsValueSum : Except String AggregationResult → Option ℚ
  | .ok r =>
      match r.groups with
      | some gs => some ((gs.map (fun e => e.value)).sum)
      | none => none
  | .error _ => none

/-- Scalar value of an ungrouped aggregation response; none when the request
failed or returned no scalar. -/
def scalarValue : Except String AggregationResult → Option ℚ
  | .ok r => r.value
  | .error _ => none

/-- Data points of a chart response; none when the request failed. -/
def chartData : Except String ChartResult → Option (List ChartDataPoint)
  | .ok c => some c.data
  | .error _ => none

/-- Reshape one grouped-aggregation row into a chart data point. -/
def toPoint (e : GroupEntry) : ChartDataPoint :=
  { label := e.group, value := e.value, metadata := [] }

/-- Grouped rows of an aggregation response; none when the request failed or
returned no grouped rows. -/
def groupsOf : Except String AggregationResult → Option (List GroupEntry)
  | .ok r => r.groups
  | .error _ => none

/-- The aggregation payload of a response with the filters_applied echo
stripped: outcome, scalar value and grouped rows. -/
def aggData : Except String AggregationResult →
    Option (Option ℚ × Option (List GroupEntry))
  | .ok r => some (r.value, r.groups)
  | .error _ => none

/-- The effective narrowing contribution of one filter parameter: its value
when truthy, nothing when absent or empty. -/
def effParam (f : FilterParams) (name : String) : Option String :=
  match f.getParam name with
  | some v => if v = "" then none else some v
  | none => none

/-- Spec-side view: every filter parameter supplied with a non-None value,
paired with that value, in declaration order. -/
def suppliedParams (p : FilterParams) : List (String × Value) :=
  (p.category.map (fun s => ("category", Value.str s))).toList
    ++ (p.region.map (fun s => ("region", Value.str s))).toList
    ++ (p.product_name.map (fun s => ("product_name", Value.str s))).toList
    ++ (p.payment_method.map (fun s => ("payment_method", Value.str s))).toList
    ++ (p.restaurant_name.map (fun s => ("restaurant_name", Value.str s))).toList
    ++ (p.cuisine_type.map (fun s => ("cuisine_type", Value.str s))).toList
    ++ (p.city.map (fun s => ("city", Value.str s))).toList
    ++ (p.delivery_status.map (fun s => ("delivery_status", Value.str s))).toList
    ++ (p.plan_name.map (fun s => ("plan_name", Value.str s))).toList
    ++ (p.plan_type.map (fun s => ("plan_type", Value.str s))).toList
    ++ (p.status.map (fun s => ("status", Value.str s))).toList
    ++ (p.currency.map (fun s => ("currency", Value.str s))).toList
    ++ (p.customer_id.map (fun s => ("customer_id", Value.str s))).toList
    ++ (p.start_date.map (fun d => ("start_date", Value.date d))).toList
    ++ (p.end_date.map (fun d => ("end_date", Value.date d))).toList

/-- One spec-side entry of the non-empty supplied filter subset. -/
def neEntryS (name : String) (v : Option String) : List (String × Value) :=
  match v with
  | some s => if s = "" then [] else [(name, Value.str s)]
  | none => []

/-- Spec-side view: the filter parameters supplied with non-empty values
(the claimed filters_applied contents). -/
def suppliedNonEmpty (p : FilterParams) : List (String × Value) :=
  neEntryS "category" p.category ++ neEntryS "region" p.region
    ++ neEntryS "product_name" p.product_name
    ++ neEntryS "payment_method" p.payment_method
    ++ neEntryS "restaurant_name" p.restaurant_name
    ++ neEntryS "cuisine_type" p.cuisine_type
    ++ neEntryS "city" p.city ++ neEntryS "delivery_status" p.delivery_status
    ++ neEntryS "plan_name" p.plan_name ++ neEntryS "plan_type" p.plan_type
    ++ neEntryS "status" p.status ++ neEntryS "currency" p.currency
    ++ neEntryS "customer_id" p.customer_id
    ++ dumpEntryD "start_date" p.start_date ++ dumpEntryD "end_date" p.end_date

/-- Concrete filter bag with one supplied-but-empty and one non-empty parameter. -/
def pCex : FilterParams := { category := some "", region := some "North" }

/-- Concrete filter bag with one non-empty parameter. -/
def pW : FilterParams := { region := some "North" }

/-- Concrete sales record used by witnesses. -/
def wr1 : Rec :=
  [("category", .str "Electronics"), ("region", .str "North"), ("amount", .num 100),
   ("quantity", .num 2), ("sale_date", .date 10), ("customer_id", .str "c1"),
   ("product_name", .str "TV"), ("payment_method", .str "card")]

/-- Concrete sales record used by witnesses. -/
def wr2 : Rec :=
  [("category", .str "Furniture"), ("region", .str "South"), ("amount", .num 50),
   ("quantity", .num 1), ("sale_date", .date 20), ("customer_id", .str "c2"),
   ("product_name", .str "Desk"), ("payment_method", .str "cash")]

/-- Concrete sales record used by witnesses. -/
def wr3 : Rec :=
  [("category", .str "Electronics"), ("region", .str "North"), ("amount", .num 25),
   ("quantity", .num 3), ("sale_date", .date 30), ("customer_id", .str "c3"),
   ("product_name", .str "Radio"), ("payment_method", .str "card")]

/-- Concrete sales table used by witnesses. -/
def sampleDb : List Rec := [wr1, wr2, wr3]

/-- Concrete attribute update overwriting only the amount field, used to witness
field-value independence of counting. -/
def updAmount (r : Rec) : Rec := ("amount", Value.num 999) :: r

lemma get_config_eq (t : AnalyticsType) : get_config t = .ok (configOf t) := by
  cases t <;> rfl

lemma config_det {t : AnalyticsType} {cfg : DomainConfig}
    (h : get_config t = .ok cfg) : cfg = configOf t := by
  rw [get_config_eq t] at h
  exact (Except.ok.injEq _ _).mp h.symm

lemma groupable_ne_empty (t : AnalyticsType) :
    ∀ g ∈ (configOf t).groupable_fields, g ≠ "" := by
  cases t <;> decide

lemma agg_field_fresh (t : AnalyticsType) :
    ∀ field ∈ (configOf t).aggregatable_fields,
      (configOf t).date_field ≠ field
        ∧ (∀ pb ∈ (configOf t).filter_fields, pb.2 ≠ field)
        ∧ (∀ g ∈ (configOf t).groupable_fields, g ≠ field) := by
  cases t <;> decide

lemma list_map_congr {α β : Type} {f g : α → β} :
    ∀ {l : List α}, (∀ x ∈ l, f x = g x) → l.map f = l.map g := by
  intro l
  induction l with
  | nil => intro _; rfl
  | cons x xs ih =>
    intro h
    simp only [List.map_cons]
    rw [h x (by simp), ih (fun y hy => h y (by simp [hy]))]

lemma list_filter_congr {α : Type} {p q : α → Bool} :
    ∀ {l : List α}, (∀ x ∈ l, p x = q x) → l.filter p = l.filter q := by
  intro l
  induction l with
  | nil => intro _; rfl
  | cons x xs ih =>
    intro h
    simp only [List.filter_cons, h x (by simp)]
    rw [ih (fun y hy => h y (by simp [hy]))]

lemma list_all_congr {α : Type} {p q : α → Bool} :
    ∀ {l : List α}, (∀ x ∈ l, p x = q x) → l.all p = l.all q := by
  intro l
  induction l with
  | nil => intro _; rfl
  | cons x xs ih =>
    intro h
    simp only [List.all_cons, h x (by simp)]
    rw [ih (fun y hy => h y (by simp [hy]))]

lemma list_filter_of_map {α β : Type} (u : α → β) (p : β → Bool) :
    ∀ l : List α, (l.map u).filter p = (l.filter (fun x => p (u x))).map u := by
  intro l
  induction l with
  | nil => rfl
  | cons x xs ih =>
    simp only [List.map_cons, List.filter_cons]
    by_cases h : p (u x)
    · simp [h, ih]
    · simp [h, ih]

lemma list_filter_filter {α : Type} (p q : α → Bool) :
    ∀ l : List α, (l.filter p).filter q = l.filter (fun a => p a && q a) := by
  intro l
  induction l with
  | nil => rfl
  | cons x xs ih =>
    by_cases hp : p x
    · by_cases hq : q x
      · simp [List.filter_cons, hp, hq, ih]
      · simp [List.filter_cons, hp, hq, ih]
    · simp [List.filter_cons, hp, ih]

lemma sum_filter_split {α : Type} (p : α → Bool) (v : α → ℚ) :
    ∀ l : List α,
      ((l.filter p).map v).sum + ((l.filter (fun x => !(p x))).map v).sum
        = (l.map v).sum := by
  intro l
  induction l with
  | nil => simp
  | cons x xs ih =>
    by_cases h : p x
    · have h1 : (x :: xs).filter p = x :: xs.filter p := by
        simp [List.filter_cons, h]
      have h2 : (x :: xs).filter (fun y => !(p y)) = xs.filter (fun y => !(p y)) := by
        simp [List.filter_cons, h]
      rw [h1, h2, List.map_cons, List.sum_cons, List.map_cons, List.sum_cons,
        add_assoc, ih]
    · have h1 : (x :: xs).filter p = xs.filter p := by
        simp [List.filter_cons, h]
      have h2 : (x :: xs).filter (fun y => !(p y)) = x :: xs.filter (fun y => !(p y)) := by
        simp [List.filter_cons, h]
      rw [h1, h2, List.map_cons, List.sum_cons, List.map_cons, List.sum_cons, ← ih]
      ring

/-- Partition additivity: summing a weight over disjoint covering partitions,
one per key of a duplicate-free key list, gives the total weight. -/
lemma partition_sum {α κ : Type} [BEq κ] [LawfulBEq κ] (key : α → κ) (v : α → ℚ) :
    ∀ (ks : List κ) (l : List α), ks.Nodup → (∀ x ∈ l, key x ∈ ks) →
      (ks.map (fun k => ((l.filter (fun x => key x == k)).map v).sum)).sum
        = (l.map v).sum := by
  intro ks
  induction ks with
  | nil =>
    intro l _ hcov
    cases l with
    | nil => simp
    | cons x xs => exact absurd (hcov x (by simp)) (by simp)
  | cons k ks ih =>
    intro l hnd hcov
    have hnotin : k ∉ ks := (List.nodup_cons.mp hnd).1
    have hnd2 : ks.Nodup := (List.nodup_cons.mp hnd).2
    simp only [List.map_cons, List.sum_cons]
    have hts : (ks.map (fun k2 => ((l.filter (fun x => key x == k2)).map v).sum)).sum
        = (ks.map (fun k2 =>
            (((l.filter (fun x => !(key x == k))).filter (fun x => key x == k2)).map v).sum)).sum := by
      apply congrArg
      apply list_map_congr
      intro k2 hk2
      have hk2ne : k2 ≠ k := fun h => hnotin (h ▸ hk2)
      have hfe : l.filter (fun x => key x == k2)
          = (l.filter (fun x => !(key x == k))).filter (fun x => key x == k2) := by
        rw [list_filter_filter]
        apply list_filter_congr
        intro x _
        by_cases hx : key x = k2
        · have hxk : key x ≠ k := by
            rw [hx]
            exact hk2ne
          simp [hx, hxk]
          exact hk2ne
        · simp [hx]
      rw [hfe]
    have hcov2 : ∀ x ∈ l.filter (fun x => !(key x == k)), key x ∈ ks := by
      intro x hx
      rw [List.mem_filter] at hx
      have hmem := hcov x hx.1
      have hne : key x ≠ k := by
        intro hh
        simp [hh] at hx
      simp only [List.mem_cons] at hmem
      rcases hmem with h | h
      · exact absurd h hne
      · exact h
    rw [hts, ih _ hnd2 hcov2]
    exact sum_filter_split (fun x => key x == k) v l

lemma key_mem_groupKeys (g : String) (q : List Rec) (r : Rec) (hr : r ∈ q) :
    getAttr r g ∈ groupKeys g q := by
  unfold groupKeys
  rw [List.mem_dedup]
  exact List.mem_map_of_mem _ hr

lemma groupKeys_nodup (g : String) (q : List Rec) : (groupKeys g q).Nodup :=
  List.nodup_dedup _

lemma pyNum_sqlSum (vs : List ℚ) : pyNumOrZero (sqlSum vs) = vs.sum := by
  cases vs with
  | nil => rfl
  | cons a l =>
    show pyNumOrZero (some ((a :: l).sum)) = (a :: l).sum
    simp only [pyNumOrZero]
    by_cases h : (a :: l).sum = 0
    · rw [if_pos h, h]
    · rw [if_neg h]

lemma fieldVals_sum (field : String) (rs : List Rec) :
    (fieldVals field rs).sum = (rs.map (fun r => (asNum (getAttr r field)).getD 0)).sum := by
  induction rs with
  | nil => rfl
  | cons r rest ih =>
    simp only [fieldVals, List.filterMap_cons] at *
    cases h : asNum (getAttr r field) with
    | none => simp [h, ih]
    | some q => simp [h, List.sum_cons, ih]

lemma sumVal_as_weight (field : String) (rs : List Rec) :
    sumVal field rs = (rs.map (fun r => (asNum (getAttr r field)).getD 0)).sum := by
  rw [sumVal, pyNum_sqlSum, fieldVals_sum]

lemma countVal_as_weight (rs : List Rec) :
    countVal rs = (rs.map (fun _ => (1 : ℚ))).sum := by
  induction rs with
  | nil => rfl
  | cons r rest ih =>
    simp only [countVal, List.length_cons, List.map_cons, List.sum_cons] at *
    rw [← ih]
    push_cast
    ring

/-- Sum of the per-partition aggregate values over all observed groups equals the
total, whenever the per-partition aggregate is a sum of per-record weights. -/
lemma groupAgg_sum_values (g : String) (q : List Rec) (pv : List Rec → ℚ)
    (w : Rec → ℚ) (hpv : ∀ rs, pv rs = (rs.map w).sum) :
    ((groupAgg g q pv).map (fun e => e.value)).sum = (q.map w).sum := by
  unfold groupAgg
  rw [List.map_map]
  have hcomp : ((fun e : GroupEntry => e.value) ∘
      (fun k => ({ group := pyStr k, value := pv (partitionOf g k q) } : GroupEntry)))
      = fun k => pv (partitionOf g k q) := rfl
  rw [hcomp]
  have hrw : (groupKeys g q).map (fun k => pv (partitionOf g k q))
      = (groupKeys g q).map (fun k => ((q.filter (fun r => getAttr r g == k)).map w).sum) := by
    apply list_map_congr
    intro k _
    rw [hpv, partitionOf]
  rw [hrw]
  exact partition_sum (fun r => getAttr r g) w (groupKeys g q) q
    (groupKeys_nodup g q) (fun r hr => key_mem_groupKeys g q r hr)

lemma aggregate_unfold (db : List Rec) (t : AnalyticsType) (k : AggregationType)
    (field : String) (f : Option FilterParams) (gb : Option String) :
    aggregate db t k field f gb
      = aggregateCore (configOf t) t k field gb (filtersApplied f)
          (narrowed db t (configOf t) f) := by
  unfold aggregate
  rw [get_config_eq]

lemma truthy_none_ne_true : ¬(truthy none = true) := by decide

lemma truthy_some_of_ne {g : String} (h : g ≠ "") : truthy (some g) = true := by
  simp only [truthy, bne_iff_ne, ne_eq]
  exact h

lemma dumpS_toList (n : String) (v : Option String) :
    dumpEntryS n v = (v.map (fun s => (n, Value.str s))).toList := by
  cases v <;> rfl

lemma dumpD_toList (n : String) (v : Option ℤ) :
    dumpEntryD n v = (v.map (fun d => (n, Value.date d))).toList := by
  cases v <;> rfl

lemma dump_eq_supplied (p : FilterParams) :
    p.dumpExcludeNone = suppliedParams p := by
  unfold FilterParams.dumpExcludeNone suppliedParams
  simp only [dumpS_toList, dumpD_toList]

/-- Every validated aggregate response echoes exactly the filters_applied value
it was handed, on every aggregation branch. -/
lemma aggregateCore_filters (cfg : DomainConfig) (t : AnalyticsType)
    (k : AggregationType) (field : String) (gb : Option String)
    (fa : List (String × Value)) (q : List Rec)
    (hf : field ∈ cfg.aggregatable_fields)
    (hgb : truthy gb = true → gb.getD "" ∈ cfg.groupable_fields) :
    Except.map (fun r => r.filters_applied) (aggregateCore cfg t k field gb fa q)
      = .ok fa := by
  unfold aggregateCore
  rw [if_neg (not_not_intro hf)]
  rw [if_neg (fun hc => hc.2 (hgb hc.1))]
  cases k <;> by_cases htr : truthy gb = true <;>
    simp [htr, mkScalar, mkGrouped, Except.map]

/-- Claim C10: for every value of the domain enum, resolving the domain
configuration succeeds with a descriptor; the UnknownDomain error branch of the
registry lookup is unreachable. -/
theorem c10_registry_total (t : AnalyticsType) :
    get_config t = .ok (configOf t) := by
  cases t <;> rfl

/-- Claim C1: for every domain and every aggregation kind, an ungrouped
aggregate whose filters narrow the record set to nothing succeeds and returns
the scalar 0 (never null, never an error), provided the field is valid. -/
theorem c1_empty_set_gives_zero (db : List Rec) (t : AnalyticsType)
    (k : AggregationType) (field : String) (f : Option FilterParams)
    (cfg : DomainConfig) (hcfg : get_config t = .ok cfg)
    (hf : field ∈ cfg.aggregatable_fields)
    (hq : narrowed db t cfg f = []) :
    aggregate db t k field f none
      = .ok (mkScalar t k field (filtersApplied f) 0) := by
  have hc := config_det hcfg
  subst hc
  rw [aggregate_unfold, hq]
  cases k <;>
    simp [aggregateCore, hf, truthy, sumVal, fieldVals, sqlSum, pyNumOrZero,
      avgVal, sqlAvg, minVal, sqlMin, maxVal, sqlMax, countVal]

/-- Witness for C1 at a concrete input: sum over the sales table narrowed by an
unmatched category filter. -/
theorem c1_witness :
    aggregate sampleDb AnalyticsType.sales AggregationType.sum "amount"
        (some { category := some "Nothing" }) none
      = .ok (mkScalar AnalyticsType.sales AggregationType.sum "amount"
          (filtersApplied (some { category := some "Nothing" })) 0) :=
  c1_empty_set_gives_zero sampleDb AnalyticsType.sales AggregationType.sum "amount"
    (some { category := some "Nothing" }) SALES_CONFIG rfl (by decide) (by decide)

/-- Claim C2: for every domain, aggregation kind, filter set and group_by
choice, a field outside the aggregatable set fails with the InvalidField error
naming the valid set; no aggregation result is produced. -/
theorem c2_invalid_field_rejected (db : List Rec) (t : AnalyticsType)
    (k : AggregationType) (field : String) (f : Option FilterParams)
    (gb : Option String) (cfg : DomainConfig) (hcfg : get_config t = .ok cfg)
    (hnf : field ∉ cfg.aggregatable_fields) :
    aggregate db t k field f gb = .error (invalidFieldMsg t cfg) := by
  have hc := config_det hcfg
  subst hc
  rw [aggregate_unfold]
  unfold aggregateCore
  rw [if_pos hnf]

/-- Witness for C2 at a concrete input: the field bogus is rejected for sales
even with filters and grouping supplied. -/
theorem c2_witness :
    aggregate sampleDb AnalyticsType.sales AggregationType.count "bogus"
        (some pW) (some "region")
      = .error (invalidFieldMsg AnalyticsType.sales SALES_CONFIG) :=
  c2_invalid_field_rejected sampleDb AnalyticsType.sales AggregationType.count
    "bogus" (some pW) (some "region") SALES_CONFIG rfl (by decide)

/-- Claim C4: for min and max, a request with a valid group_by returns exactly
the result of the identical ungrouped request; group_by is silently ignored and
no error is raised. -/
theorem c4_minmax_ignore_group_by (db : List Rec) (t : AnalyticsType)
    (k : AggregationType) (field : String) (f : Option FilterParams) (g : String)
    (cfg : DomainConfig) (hcfg : get_config t = .ok cfg)
    (hg : g ∈ cfg.groupable_fields)
    (hk : k = AggregationType.min ∨ k = AggregationType.max) :
    aggregate db t k field f (some g) = aggregate db t k field f none := by
  have hc := config_det hcfg
  subst hc
  rw [aggregate_unfold, aggregate_unfold]
  rcases hk with rfl | rfl <;> simp [aggregateCore, truthy, hg]

/-- Witness for C4 at a concrete input: min over sales with group_by region
equals the ungrouped min. -/
theorem c4_witness :
    aggregate sampleDb AnalyticsType.sales AggregationType.min "amount" none
        (some "region")
      = aggregate sampleDb AnalyticsType.sales AggregationType.min "amount"
          none none :=
  c4_minmax_ignore_group_by sampleDb AnalyticsType.sales AggregationType.min
    "amount" none "region" SALES_CONFIG rfl (by decide) (Or.inl rfl)

/-- Counterexample to C5 as stated: group_by supplied as the empty string is not
a member of the groupable set, the field is valid, yet the request succeeds
instead of failing with InvalidGroupField. -/
theorem c5_counterexample :
    "" ∉ SALES_CONFIG.groupable_fields
      ∧ "amount" ∈ SALES_CONFIG.aggregatable_fields
      ∧ aggregate [] AnalyticsType.sales AggregationType.count "amount" none
            (some "")
          = .ok (mkScalar AnalyticsType.sales AggregationType.count "amount" [] 0) := by
  refine ⟨by decide, by decide, ?_⟩
  rfl

/-- Claim C5 (amended): for every domain, aggregation kind, valid field and
filter set, a group_by supplied with a non-empty value outside the groupable
set fails with the InvalidGroupField error naming the valid set. -/
theorem c5_invalid_group_rejected (db : List Rec) (t : AnalyticsType)
    (k : AggregationType) (field : String) (f : Option FilterParams) (g : String)
    (cfg : DomainConfig) (hcfg : get_config t = .ok cfg)
    (hf : field ∈ cfg.aggregatable_fields) (hne : g ≠ "")
    (hng : g ∉ cfg.groupable_fields) :
    aggregate db t k field f (some g) = .error (invalidGroupMsg t cfg) := by
  have hc := config_det hcfg
  subst hc
  rw [aggregate_unfold]
  unfold aggregateCore
  rw [if_neg (not_not_intro hf), if_pos ⟨truthy_some_of_ne hne, hng⟩]

/-- Witness for the amended C5 at a concrete input: a bogus group_by is rejected
for min on sales. -/
theorem c5_witness :
    aggregate sampleDb AnalyticsType.sales AggregationType.min "amount" none
        (some "bogus")
      = .error (invalidGroupMsg AnalyticsType.sales SALES_CONFIG) :=
  c5_invalid_group_rejected sampleDb AnalyticsType.sales AggregationType.min
    "amount" none "bogus" SALES_CONFIG rfl (by decide) (by decide) (by decide)

/-- Counterexample to C7 as stated: with category supplied empty and region
supplied non-empty, the echoed filters_applied contains the empty-valued
category entry, which is not part of the non-empty supplied subset. -/
theorem c7_counterexample :
    Except.map (fun r => r.filters_applied)
        (get_aggregation [] AnalyticsType.sales AggregationType.count "amount"
          none pCex)
      = .ok [("category", Value.str ""), ("region", Value.str "North")]
    ∧ suppliedNonEmpty pCex = [("region", Value.str "North")]
    ∧ ("category", Value.str "") ∉ suppliedNonEmpty pCex := by
  refine ⟨rfl, rfl, ?_⟩
  decide

/-- Claim C7 (amended): every successful aggregate request made through the
route echoes, as filters_applied, all parameters supplied with non-None values
when at least one supplied parameter is non-empty, and the empty mapping when
none is. -/
theorem c7_filters_echo (db : List Rec) (t : AnalyticsType) (k : AggregationType)
    (field : String) (gb : Option String) (p : FilterParams) (cfg : DomainConfig)
    (hcfg : get_config t = .ok cfg) (hf : field ∈ cfg.aggregatable_fields)
    (hgb : truthy gb = true → gb.getD "" ∈ cfg.groupable_fields) :
    Except.map (fun r => r.filters_applied) (get_aggregation db t k field gb p)
      = .ok (if has_filters p = true then suppliedParams p else []) := by
  have hc := config_det hcfg
  subst hc
  unfold get_aggregation routeFilters
  by_cases hhf : has_filters p = true
  · rw [if_pos hhf, if_pos hhf, aggregate_unfold]
    rw [aggregateCore_filters _ _ _ _ _ _ _ hf hgb]
    show Except.ok p.dumpExcludeNone = _
    rw [dump_eq_supplied]
  · rw [if_neg hhf, if_neg hhf, aggregate_unfold]
    rw [aggregateCore_filters _ _ _ _ _ _ _ hf hgb]
    rfl

/-- Witness for the amended C7 at a concrete input: a request with one non-empty
parameter echoes exactly the supplied non-None parameters. -/
theorem c7_witness :
    Except.map (fun r => r.filters_applied)
        (get_aggregation sampleDb AnalyticsType.sales AggregationType.sum
          "amount" none pW)
      = .ok (if has_filters pW = true then suppliedParams pW else []) :=
  c7_filters_echo sampleDb AnalyticsType.sales AggregationType.sum "amount" none
    pW SALES_CONFIG rfl (by decide) (fun h => absurd h truthy_none_ne_true)

/-- Claim C3: for every domain, valid field, valid group_by and filter set, the
per-partition values of a grouped sum add up to the ungrouped sum over the same
narrowed record set, and the ungrouped sum is a present scalar. -/
theorem c3_grouped_sum_additivity (db : List Rec) (t : AnalyticsType)
    (field : String) (f : Option FilterParams) (g : String) (cfg : DomainConfig)
    (hcfg : get_config t = .ok cfg) (hf : field ∈ cfg.aggregatable_fields)
    (hg : g ∈ cfg.groupable_fields) :
    groupsValueSum (aggregate db t AggregationType.sum field f (some g))
        = scalarValue (aggregate db t AggregationType.sum field f none)
      ∧ (scalarValue (aggregate db t AggregationType.sum field f none)).isSome
          = true := by
  have hc := config_det hcfg
  subst hc
  have hne : g ≠ "" := groupable_ne_empty t g hg
  have htr : truthy (some g) = true := truthy_some_of_ne hne
  rw [aggregate_unfold, aggregate_unfold]
  unfold aggregateCore
  have hL : ¬(truthy (some g) = true
      ∧ (some g).getD "" ∉ (configOf t).groupable_fields) :=
    fun hc2 => hc2.2 hg
  have hR : ¬(truthy (none : Option String) = true
      ∧ (none : Option String).getD "" ∉ (configOf t).groupable_fields) :=
    fun hc2 => truthy_none_ne_true hc2.1
  rw [if_neg (not_not_intro hf), if_neg (not_not_intro hf), if_neg hL, if_neg hR]
  simp [groupsValueSum, scalarValue, mkGrouped, mkScalar, htr, truthy_none_ne_true]
  rw [groupAgg_sum_values g (narrowed db t (configOf t) f) (sumVal field)
    (fun r => (asNum (getAttr r field)).getD 0) (fun rs => sumVal_as_weight field rs)]
  rw [sumVal_as_weight field (narrowed db t (configOf t) f)]

/-- Witness for C3 at a concrete input: sum of amount grouped by region over the
sample sales table adds up to the ungrouped sum. -/
theorem c3_witness :
    groupsValueSum (aggregate sampleDb AnalyticsType.sales AggregationType.sum
          "amount" none (some "region"))
        = scalarValue (aggregate sampleDb AnalyticsType.sales AggregationType.sum
            "amount" none none)
      ∧ (scalarValue (aggregate sampleDb AnalyticsType.sales AggregationType.sum
            "amount" none none)).isSome = true :=
  c3_grouped_sum_additivity sampleDb AnalyticsType.sales "amount" none "region"
    SALES_CONFIG rfl (by decide) (by decide)

lemma filterPred_upd (mf : List String) (cfg : DomainConfig) (fp : FilterParams)
    (field : String) (upd : Rec → Rec)
    (hupd : ∀ r a, a ≠ field → getAttr (upd r) a = getAttr r a)
    (hd : cfg.date_field ≠ field)
    (hb : ∀ pb ∈ cfg.filter_fields, pb.2 ≠ field) (r : Rec) :
    filterPred mf cfg fp (upd r) = filterPred mf cfg fp r := by
  unfold filterPred
  have hA : cfg.filter_fields.all (paramPred mf fp (upd r))
      = cfg.filter_fields.all (paramPred mf fp r) := by
    apply list_all_congr
    intro pb hpb
    unfold paramPred
    rw [hupd r pb.2 (hb pb hpb)]
  have hB : (match fp.start_date with
      | some sd => datePredGE mf cfg.date_field sd (upd r)
      | none => true)
      = (match fp.start_date with
        | some sd => datePredGE mf cfg.date_field sd r
        | none => true) := by
    cases fp.start_date with
    | none => rfl
    | some sd =>
      unfold datePredGE
      rw [hupd r cfg.date_field hd]
  have hC : (match fp.end_date with
      | some ed => datePredLE mf cfg.date_field ed (upd r)
      | none => true)
      = (match fp.end_date with
        | some ed => datePredLE mf cfg.date_field ed r
        | none => true) := by
    cases fp.end_date with
    | none => rfl
    | some ed =>
      unfold datePredLE
      rw [hupd r cfg.date_field hd]
  rw [hA, hB, hC]

lemma narrowed_map_upd (db : List Rec) (t : AnalyticsType) (cfg : DomainConfig)
    (f : Option FilterParams) (field : String) (upd : Rec → Rec)
    (hupd : ∀ r a, a ≠ field → getAttr (upd r) a = getAttr r a)
    (hd : cfg.date_field ≠ field)
    (hb : ∀ pb ∈ cfg.filter_fields, pb.2 ≠ field) :
    narrowed (db.map upd) t cfg f = (narrowed db t cfg f).map upd := by
  cases f with
  | none => rfl
  | some fp =>
    show apply_filters (modelFields t) cfg fp (db.map upd)
      = (apply_filters (modelFields t) cfg fp db).map upd
    unfold apply_filters
    rw [list_filter_of_map]
    apply congrArg
    apply list_filter_congr
    intro r _
    exact filterPred_upd (modelFields t) cfg fp field upd hupd hd hb r

lemma groupKeys_map_upd (g field : String) (upd : Rec → Rec) (q : List Rec)
    (hupd : ∀ r a, a ≠ field → getAttr (upd r) a = getAttr r a)
    (hgf : g ≠ field) :
    groupKeys g (q.map upd) = groupKeys g q := by
  unfold groupKeys
  rw [List.map_map]
  apply congrArg
  apply list_map_congr
  intro r _
  exact hupd r g hgf

lemma partition_map_upd (g field : String) (upd : Rec → Rec) (k : Option Value)
    (q : List Rec)
    (hupd : ∀ r a, a ≠ field → getAttr (upd r) a = getAttr r a)
    (hgf : g ≠ field) :
    partitionOf g k (q.map upd) = (partitionOf g k q).map upd := by
  unfold partitionOf
  rw [list_filter_of_map]
  apply congrArg
  apply list_filter_congr
  intro r _
  rw [hupd r g hgf]

lemma groupAgg_count_upd (g field : String) (upd : Rec → Rec) (q : List Rec)
    (hupd : ∀ r a, a ≠ field → getAttr (upd r) a = getAttr r a)
    (hgf : g ≠ field) :
    groupAgg g (q.map upd) countVal = groupAgg g q countVal := by
  unfold groupAgg
  rw [groupKeys_map_upd g field upd q hupd hgf]
  apply list_map_congr
  intro k _
  rw [partition_map_upd g field upd k q hupd hgf]
  simp [countVal]

/-- Claim C6: grouped count partitions add up to the ungrouped count, and both
counts are unchanged when every record has its aggregation field overwritten
(the field is validated but never read for counting). -/
theorem c6_count_additivity_field_independent (db : List Rec) (t : AnalyticsType)
    (field : String) (f : Option FilterParams) (g : String) (upd : Rec → Rec)
    (cfg : DomainConfig) (hcfg : get_config t = .ok cfg)
    (hf : field ∈ cfg.aggregatable_fields) (hg : g ∈ cfg.groupable_fields)
    (hupd : ∀ r a, a ≠ field → getAttr (upd r) a = getAttr r a) :
    groupsValueSum (aggregate db t AggregationType.count field f (some g))
        = scalarValue (aggregate db t AggregationType.count field f none)
      ∧ (scalarValue (aggregate db t AggregationType.count field f none)).isSome
          = true
      ∧ aggregate (db.map upd) t AggregationType.count field f (some g)
          = aggregate db t AggregationType.count field f (some g)
      ∧ aggregate (db.map upd) t AggregationType.count field f none
          = aggregate db t AggregationType.count field f none := by
  have hc := config_det hcfg
  subst hc
  obtain ⟨hd, hb, hgs⟩ := agg_field_fresh t field hf
  have hgf : g ≠ field := hgs g hg
  have hne : g ≠ "" := groupable_ne_empty t g hg
  have htr : truthy (some g) = true := truthy_some_of_ne hne
  have hL : ¬(truthy (some g) = true
      ∧ (some g).getD "" ∉ (configOf t).groupable_fields) :=
    fun hc2 => hc2.2 hg
  have hR : ¬(truthy (none : Option String) = true
      ∧ (none : Option String).getD "" ∉ (configOf t).groupable_fields) :=
    fun hc2 => truthy_none_ne_true hc2.1
  have hQ : narrowed (db.map upd) t (configOf t) f
      = (narrowed db t (configOf t) f).map upd :=
    narrowed_map_upd db t (configOf t) f field upd hupd hd hb
  refine ⟨?_, ?_, ?_, ?_⟩
  · rw [aggregate_unfold, aggregate_unfold]
    unfold aggregateCore
    rw [if_neg (not_not_intro hf), if_neg (not_not_intro hf), if_neg hL, if_neg hR]
    simp [groupsValueSum, scalarValue, mkGrouped, mkScalar, htr,
      truthy_none_ne_true]
    rw [groupAgg_sum_values g (narrowed db t (configOf t) f) countVal
      (fun _ => (1 : ℚ)) countVal_as_weight]
    rw [countVal_as_weight (narrowed db t (configOf t) f)]
  · rw [aggregate_unfold]
    unfold aggregateCore
    rw [if_neg (not_not_intro hf), if_neg hR]
    simp [scalarValue, mkScalar, truthy_none_ne_true]
  · rw [aggregate_unfold, aggregate_unfold, hQ]
    unfold aggregateCore
    rw [if_neg (not_not_intro hf), if_neg (not_not_intro hf), if_neg hL, if_neg hL]
    simp only [htr, if_true, Option.getD_some]
    rw [groupAgg_count_upd g field upd (narrowed db t (configOf t) f) hupd hgf]
  · rw [aggregate_unfold, aggregate_unfold, hQ]
    unfold aggregateCore
    rw [if_neg (not_not_intro hf), if_neg (not_not_intro hf), if_neg hR, if_neg hR]
    simp [truthy_none_ne_true, mkScalar, countVal]

/-- Witness for C6 at a concrete input: count of amount grouped by region over
the sample sales table, with every amount overwritten by 999. -/
theorem c6_witness :
    groupsValueSum (aggregate sampleDb AnalyticsType.sales AggregationType.count
          "amount" none (some "region"))
        = scalarValue (aggregate sampleDb AnalyticsType.sales
            AggregationType.count "amount" none none)
      ∧ (scalarValue (aggregate sampleDb AnalyticsType.sales
            AggregationType.count "amount" none none)).isSome = true
      ∧ aggregate (sampleDb.map updAmount) AnalyticsType.sales
            AggregationType.count "amount" none (some "region")
          = aggregate sampleDb AnalyticsType.sales AggregationType.count
              "amount" none (some "region")
      ∧ aggregate (sampleDb.map updAmount) AnalyticsType.sales
            AggregationType.count "amount" none none
          = aggregate sampleDb AnalyticsType.sales AggregationType.count
              "amount" none none :=
  c6_count_additivity_field_independent sampleDb AnalyticsType.sales "amount"
    none "region" updAmount SALES_CONFIG rfl (by decide) (by decide)
    (fun r a ha => by
      have hbeq : (("amount" : String) == a) = false := by
        rw [beq_eq_false_iff_ne]
        exact fun hx => ha hx.symm
      unfold updAmount getAttr
      simp [List.find?_cons, hbeq])

lemma paramPred_eff (mf : List String) (f f2 : FilterParams) (r : Rec)
    (pb : String × String) (h : effParam f pb.1 = effParam f2 pb.1) :
    paramPred mf f r pb = paramPred mf f2 r pb := by
  unfold effParam at h
  unfold paramPred
  cases hv : f.getParam pb.1 with
  | none =>
    cases hv2 : f2.getParam pb.1 with
    | none => rfl
    | some w =>
      rw [hv, hv2] at h
      dsimp only at h
      by_cases hw : w = ""
      · subst hw
        simp
      · rw [if_neg hw] at h
        exact absurd h (by simp)
  | some v =>
    cases hv2 : f2.getParam pb.1 with
    | none =>
      rw [hv, hv2] at h
      dsimp only at h
      by_cases hvv : v = ""
      · subst hvv
        simp
      · rw [if_neg hvv] at h
        exact absurd h (by simp)
    | some w =>
      rw [hv, hv2] at h
      dsimp only at h
      by_cases hvv : v = "" <;> by_cases hw : w = ""
      · subst hvv
        subst hw
        rfl
      · rw [if_pos hvv, if_neg hw] at h
        exact absurd h (by simp)
      · rw [if_neg hvv, if_pos hw] at h
        exact absurd h (by simp)
      · rw [if_neg hvv, if_neg hw] at h
        have hvw : v = w := Option.some.inj h
        subst hvw
        rfl

lemma filterPred_eff (mf : List String) (cfg : DomainConfig) (f f2 : FilterParams)
    (hp : ∀ pb ∈ cfg.filter_fields, effParam f pb.1 = effParam f2 pb.1)
    (hs : f.start_date = f2.start_date) (he : f.end_date = f2.end_date) (r : Rec) :
    filterPred mf cfg f r = filterPred mf cfg f2 r := by
  unfold filterPred
  rw [hs, he]
  have hA : cfg.filter_fields.all (paramPred mf f r)
      = cfg.filter_fields.all (paramPred mf f2 r) :=
    list_all_congr (fun pb hpb => paramPred_eff mf f f2 r pb (hp pb hpb))
  rw [hA]

/-- The aggregation payload of a validated response does not depend on the
filters_applied echo it is handed. -/
lemma aggData_fa_indep (cfg : DomainConfig) (t : AnalyticsType)
    (k : AggregationType) (field : String) (gb : Option String)
    (fa fa2 : List (String × Value)) (q : List Rec) :
    aggData (aggregateCore cfg t k field gb fa q)
      = aggData (aggregateCore cfg t k field gb fa2 q) := by
  unfold aggregateCore
  by_cases h1 : field ∉ cfg.aggregatable_fields
  · rw [if_pos h1, if_pos h1]
  · rw [if_neg h1, if_neg h1]
    by_cases h2 : truthy gb = true ∧ gb.getD "" ∉ cfg.groupable_fields
    · rw [if_pos h2, if_pos h2]
    · rw [if_neg h2, if_neg h2]
      cases k <;> by_cases h3 : truthy gb = true <;>
        simp [h3, aggData, mkScalar, mkGrouped]

/-- Claim C8: filter parameters not bound for the domain, and absent or
empty-valued parameters, emit no predicate: two filter bags agreeing on the
effective values of the domain-bound parameters and on the date range narrow
the record set identically, and every aggregate computes the same value and
groups over them. -/
theorem c8_unbound_empty_filters_inert (db : List Rec) (t : AnalyticsType)
    (k : AggregationType) (field : String) (gb : Option String)
    (f f2 : FilterParams) (cfg : DomainConfig) (hcfg : get_config t = .ok cfg)
    (hp : ∀ pb ∈ cfg.filter_fields, effParam f pb.1 = effParam f2 pb.1)
    (hs : f.start_date = f2.start_date) (he : f.end_date = f2.end_date) :
    apply_filters (modelFields t) cfg f db
        = apply_filters (modelFields t) cfg f2 db
      ∧ aggData (aggregate db t k field (some f) gb)
          = aggData (aggregate db t k field (some f2) gb) := by
  have hc := config_det hcfg
  subst hc
  have hAF : apply_filters (modelFields t) (configOf t) f db
      = apply_filters (modelFields t) (configOf t) f2 db := by
    unfold apply_filters
    exact list_filter_congr
      (fun r _ => filterPred_eff (modelFields t) (configOf t) f f2 hp hs he r)
  refine ⟨hAF, ?_⟩
  rw [aggregate_unfold, aggregate_unfold]
  have hQ : narrowed db t (configOf t) (some f)
      = narrowed db t (configOf t) (some f2) := hAF
  rw [hQ]
  exact aggData_fa_indep (configOf t) t k field gb (filtersApplied (some f))
    (filtersApplied (some f2)) (narrowed db t (configOf t) (some f2))

/-- Witness for C8 at a concrete input: for sales, a bag carrying an unbound
city parameter and an absent region equals a bag without the city parameter
and with region supplied empty. -/
theorem c8_witness :
    apply_filters (modelFields AnalyticsType.sales) SALES_CONFIG
        { category := some "Electronics", city := some "Mumbai" } sampleDb
      = apply_filters (modelFields AnalyticsType.sales) SALES_CONFIG
          { category := some "Electronics", region := some "" } sampleDb
    ∧ aggData (aggregate sampleDb AnalyticsType.sales AggregationType.sum
        "amount" (some { category := some "Electronics", city := some "Mumbai" })
        none)
      = aggData (aggregate sampleDb AnalyticsType.sales AggregationType.sum
          "amount" (some { category := some "Electronics", region := some "" })
          none) :=
  c8_unbound_empty_filters_inert sampleDb AnalyticsType.sales
    AggregationType.sum "amount" none
    { category := some "Electronics", city := some "Mumbai" }
    { category := some "Electronics", region := some "" }
    SALES_CONFIG rfl (by decide) rfl rfl

lemma chart_unfold (db : List Rec) (t : AnalyticsType) (ck field g : String)
    (f : Option FilterParams) :
    get_chart_data db t ck field g f
      = if field ∉ (configOf t).aggregatable_fields then
          .error (invalidFieldMsg t (configOf t))
        else if g ∉ (configOf t).groupable_fields then
          .error (invalidGroupMsg t (configOf t))
        else
          .ok { analytics_type := t.value, chart_type := ck,
                data := chartPoints field g (narrowed db t (configOf t) f),
                meta_field := field, meta_group_by := g,
                meta_filters_applied := filtersApplied f,
                meta_total_points :=
                  (chartPoints field g (narrowed db t (configOf t) f)).length } := by
  unfold get_chart_data
  rw [get_config_eq]

lemma chartPoints_eq_groupAgg (field g : String) (q : List Rec) :
    chartPoints field g q = (groupAgg g q (sumVal field)).map toPoint := by
  unfold chartPoints groupAgg
  rw [List.map_map]
  rfl

/-- Claim C9: the chart data sequence equals the groups of the grouped-sum
aggregate reshaped pointwise into label/value/empty-metadata points in the same
order, the chart request succeeds, the data does not depend on the chart kind,
and an empty narrowed record set yields an empty data sequence, not an error. -/
theorem c9_chart_is_grouped_sum (db : List Rec) (t : AnalyticsType)
    (ck ck2 field g : String) (f : Option FilterParams) (cfg : DomainConfig)
    (hcfg : get_config t = .ok cfg) (hf : field ∈ cfg.aggregatable_fields)
    (hg : g ∈ cfg.groupable_fields) :
    chartData (get_chart_data db t ck field g f)
        = Option.map (List.map toPoint)
            (groupsOf (aggregate db t AggregationType.sum field f (some g)))
      ∧ (chartData (get_chart_data db t ck field g f)).isSome = true
      ∧ chartData (get_chart_data db t ck2 field g f)
          = chartData (get_chart_data db t ck field g f)
      ∧ (narrowed db t cfg f = []
          → chartData (get_chart_data db t ck field g f) = some []) := by
  have hc := config_det hcfg
  subst hc
  have hne : g ≠ "" := groupable_ne_empty t g hg
  have htr : truthy (some g) = true := truthy_some_of_ne hne
  have hL : ¬(truthy (some g) = true
      ∧ (some g).getD "" ∉ (configOf t).groupable_fields) :=
    fun hc2 => hc2.2 hg
  rw [chart_unfold, chart_unfold, aggregate_unfold]
  unfold aggregateCore
  rw [if_neg (not_not_intro hf), if_neg (not_not_intro hf),
    if_neg (not_not_intro hf), if_neg (not_not_intro hg),
    if_neg (not_not_intro hg), if_neg hL, if_pos htr]
  simp only [chartData, groupsOf, mkGrouped, Option.getD_some, Option.map_some,
    Option.isSome_some, and_true, true_and]
  refine ⟨?_, ?_⟩
  · rw [chartPoints_eq_groupAgg]
    rfl
  · intro hq
    rw [hq]
    rfl

/-- Witness for C9 at a concrete input: a pie chart of amount by region over an
empty sales table matches the grouped-sum aggregate and has empty data. -/
theorem c9_witness :
    chartData (get_chart_data [] AnalyticsType.sales "pie" "amount" "region" none)
        = Option.map (List.map toPoint)
            (groupsOf (aggregate [] AnalyticsType.sales AggregationType.sum
              "amount" none (some "region")))
      ∧ (chartData (get_chart_data [] AnalyticsType.sales "pie" "amount"
            "region" none)).isSome = true
      ∧ chartData (get_chart_data [] AnalyticsType.sales "bar" "amount"
            "region" none)
          = chartData (get_chart_data [] AnalyticsType.sales "pie" "amount"
              "region" none)
      ∧ (narrowed [] AnalyticsType.sales SALES_CONFIG none = []
          → chartData (get_chart_data [] AnalyticsType.sales "pie" "amount"
              "region" none) = some []) :=
  c9_chart_is_grouped_sum [] AnalyticsType.sales "pie" "bar" "amount" "region"
    none SALES_CONFIG rfl (by decide) (by decide)

end AnalyticsBackend
